import Mathlib

set_option maxRecDepth 8192

/-!
Verification of `SemanticAnswerSimilarity._compute` from
`simple_llms_eval/sas.py`, shallowly embedded in Lean.

The external collaborators (the configuration loader, the cross-encoder
inference engine, CUDA availability) are modelled as an environment of
oracles; `sasCompute` mirrors the body of `_compute` line by line,
recording observable effects (printed diagnostics, engine instantiation,
predict calls) in a trace.  Scores are modelled as rationals, the
idealisation of the floating-point values the engine returns.
-/

namespace SimpleLLMsEval

/-- A numeric value as produced by `numpy` operations: either an ordinary
number, or NaN (which `np.mean` returns on an empty list). -/
inductive NpFloat where
  | val : ℚ → NpFloat
  | nan : NpFloat
deriving Repr, DecidableEq

/-- `float(np.mean(scores))` for a Python list of floats: arithmetic mean,
NaN when the list is empty. -/
def npMean (s : List ℚ) : NpFloat :=
  if s.isEmpty then NpFloat.nan else NpFloat.val (s.sum / s.length)

/-- The value `_compute` produces.  `pyNone` is the bare `return` taken on
the invalid-architecture path; `unboundLocalError` is the exception Python
raises at `if not is_cross_encoder` when the variable was never assigned. -/
inductive ComputeResult where
  | scores : List ℚ → ComputeResult
  | scoresWithAvg : List ℚ → NpFloat → ComputeResult
  | pyNone : ComputeResult
  | unboundLocalError : ComputeResult
deriving Repr, DecidableEq

/-- Extract the score list from a result, when there is one. -/
def ComputeResult.scoresOf : ComputeResult → Option (List ℚ)
  | ComputeResult.scores s => some s
  | ComputeResult.scoresWithAvg s _ => some s
  | ComputeResult.pyNone => none
  | ComputeResult.unboundLocalError => none

/-- Observable effects of one `_compute` call: lines printed, the
`CrossEncoder(model_name, device=device)` instantiation if any, and the
`model.predict(pairs, batch_size=batch_size)` calls made. -/
structure Trace where
  printed : List String
  engineInstantiated : Option (String × String)
  predictCalls : List (List (String × String) × Nat)
deriving Repr, DecidableEq

/-- The external world `_compute` interacts with:
`architectures name` models `AutoConfig.from_pretrained(name).architectures`
(`none` for Python `None`); `cudaAvailable` models
`torch.cuda.is_available()`; `crossEncoderScore name (p, r)` is the score
the cross-encoder loaded from `name` assigns to the pair `[p, r]`. -/
structure Env where
  architectures : String → Option (List String)
  cudaAvailable : Bool
  crossEncoderScore : String → String × String → ℚ

/-- Python `s.endswith(suffix)`: the characters of `suffix` form a suffix of
the characters of `s`. -/
def pyEndsWith (s suffix : String) : Bool :=
  suffix.data.isSuffixOf s.data

/-- Python truthiness of `model_config.architectures`: `None` and the empty
list are falsy. -/
def truthy : Option (List String) → Bool
  | none => false
  | some l => !l.isEmpty

/-- The local variables in scope during the pair-building loop of
`_compute`: the two input lists and the accumulating `pairs` list. -/
@[ext]
structure LoopState where
  predictions : List String
  references : List String
  pairs : List (String × String)
deriving Repr, DecidableEq

/-- One iteration of the loop body: `pairs.append([prediction, reference])`. -/
def appendPair (s : LoopState) (pr : String × String) : LoopState :=
  { s with pairs := s.pairs ++ [pr] }

/-- `for prediction, reference in zip(predictions, references): ...` -/
def pairLoop (s : LoopState) : LoopState :=
  (s.predictions.zip s.references).foldl appendPair s

/-- `CrossEncoder.predict(pairs, batch_size=batch_size)`: the engine scores
the pairs in submission order, slice by slice of `batch_size` pairs
(`pairs[0:batch_size]`, `pairs[batch_size:2*batch_size]`, ...), one score
per pair. -/
def predictBatched (score : String × String → ℚ) (batch_size : Nat) :
    List (String × String) → List ℚ
  | [] => []
  | p :: ps =>
      (score p :: (ps.take (batch_size - 1)).map score)
        ++ predictBatched score batch_size (ps.drop (batch_size - 1))
termination_by l => l.length
decreasing_by
  simp only [List.length_drop, List.length_cons]
  omega

/-- Everything observable about one call to `_compute`: the final values of
the `predictions` and `references` arguments, the effect trace, and the
returned value. -/
structure ComputeOut where
  predictionsAfter : List String
  referencesAfter : List String
  trace : Trace
  result : ComputeResult
deriving Repr, DecidableEq

/-- Shallow embedding of `SemanticAnswerSimilarity._compute`.

```python
model_config = AutoConfig.from_pretrained(model_name)
if model_config.architectures:
    is_cross_encoder = any(architectures.endswith("ForSequenceClassification")
                           for architectures in model_config.architectures)
if not is_cross_encoder:
    print(f"Invalid model architecture, {model_name} is not a cross-encoder.")
    return
device = "cuda" if torch.cuda.is_available() else "cpu"
model = CrossEncoder(model_name, device=device)
pairs = []
for prediction, reference in zip(predictions, references):
    pairs.append([prediction, reference])
scores = model.predict(pairs, batch_size=batch_size).tolist()
if return_average:
    avg_score = float(np.mean(scores))
    return scores, avg_score
return scores
```

`is_cross_encoder` is assigned only under the truthiness guard, so when
`model_config.architectures` is `None` or empty the read in
`if not is_cross_encoder` raises `UnboundLocalError`; this is modelled by
the `Option Bool` and the `unboundLocalError` result. -/
def sasCompute (env : Env) (predictions references : List String)
    (model_name : String) (return_average : Bool) (batch_size : Nat) :
    ComputeOut :=
  let model_config_architectures := env.architectures model_name
  let is_cross_encoder : Option Bool :=
    if truthy model_config_architectures then
      some ((model_config_architectures.getD []).any
        (fun architectures => pyEndsWith architectures "ForSequenceClassification"))
    else
      none
  match is_cross_encoder with
  | none =>
      { predictionsAfter := predictions
        referencesAfter := references
        trace := { printed := [], engineInstantiated := none, predictCalls := [] }
        result := ComputeResult.unboundLocalError }
  | some ice =>
      if !ice then
        { predictionsAfter := predictions
          referencesAfter := references
          trace :=
            { printed :=
                ["Invalid model architecture, " ++ model_name ++ " is not a cross-encoder."]
              engineInstantiated := none
              predictCalls := [] }
          result := ComputeResult.pyNone }
      else
        let device := if env.cudaAvailable then "cuda" else "cpu"
        let st := pairLoop
          { predictions := predictions, references := references, pairs := [] }
        let scores := predictBatched (env.crossEncoderScore model_name) batch_size st.pairs
        let trace : Trace :=
          { printed := []
            engineInstantiated := some (model_name, device)
            predictCalls := [(st.pairs, batch_size)] }
        if return_average then
          { predictionsAfter := st.predictions
            referencesAfter := st.references
            trace := trace
            result := ComputeResult.scoresWithAvg scores (npMean scores) }
        else
          { predictionsAfter := st.predictions
            referencesAfter := st.references
            trace := trace
            result := ComputeResult.scores scores }

/-- The architecture validation succeeds exactly when the resolved
architecture list exists and some entry ends in the sequence-classification
marker. -/
def archCheckPasses (env : Env) (model_name : String) : Bool :=
  match env.architectures model_name with
  | none => false
  | some archs => archs.any (fun a => pyEndsWith a "ForSequenceClassification")

/-! ### Helper lemmas -/

theorem foldl_appendPair_predictions (l : List (String × String)) (s : LoopState) :
    (l.foldl appendPair s).predictions = s.predictions := by
  induction l generalizing s with
  | nil => rfl
  | cons x xs ih => simp [List.foldl_cons, ih, appendPair]

theorem foldl_appendPair_references (l : List (String × String)) (s : LoopState) :
    (l.foldl appendPair s).references = s.references := by
  induction l generalizing s with
  | nil => rfl
  | cons x xs ih => simp [List.foldl_cons, ih, appendPair]

theorem foldl_appendPair_pairs (l : List (String × String)) (s : LoopState) :
    (l.foldl appendPair s).pairs = s.pairs ++ l := by
  induction l generalizing s with
  | nil => simp
  | cons x xs ih => simp [List.foldl_cons, ih, appendPair]

theorem pairLoop_eq (p r : List String) :
    pairLoop { predictions := p, references := r, pairs := [] } =
      { predictions := p, references := r, pairs := p.zip r } := by
  unfold pairLoop
  refine LoopState.ext ?_ ?_ ?_
  · exact foldl_appendPair_predictions _ _
  · exact foldl_appendPair_references _ _
  · simpa using foldl_appendPair_pairs (p.zip r) _

theorem predictBatched_eq_map_aux (score : String × String → ℚ) (bs : Nat) :
    ∀ n (l : List (String × String)), l.length ≤ n →
      predictBatched score bs l = l.map score := by
  intro n
  induction n with
  | zero =>
    intro l hl
    have : l = [] := List.length_eq_zero.mp (Nat.le_zero.mp hl)
    subst this
    simp [predictBatched]
  | succ n ih =>
    intro l hl
    match l with
    | [] => simp [predictBatched]
    | p :: ps =>
      simp only [List.length_cons] at hl
      rw [predictBatched]
      rw [ih (ps.drop (bs - 1)) (by simp only [List.length_drop]; omega)]
      rw [List.cons_append, ← List.map_append, List.take_append_drop]
      simp

theorem predictBatched_eq_map (score : String × String → ℚ) (bs : Nat)
    (l : List (String × String)) :
    predictBatched score bs l = l.map score :=
  predictBatched_eq_map_aux score bs l.length l le_rfl

/-- On the validation-failure path, `_compute` is fully determined: when the
architecture list is present (but matches nothing) the diagnostic is printed
and `None` returned; when it is absent or empty the call dies with
`UnboundLocalError`.  Either way the engine is never instantiated and no
predict call happens. -/
theorem sasCompute_fail (env : Env) (p r : List String) (m : String)
    (ra : Bool) (bs : Nat) (h : archCheckPasses env m = false) :
    sasCompute env p r m ra bs =
      { predictionsAfter := p
        referencesAfter := r
        trace :=
          { printed :=
              if truthy (env.architectures m) then
                ["Invalid model architecture, " ++ m ++ " is not a cross-encoder."]
              else []
            engineInstantiated := none
            predictCalls := [] }
        result :=
          if truthy (env.architectures m) then ComputeResult.pyNone
          else ComputeResult.unboundLocalError } := by
  unfold archCheckPasses at h
  unfold sasCompute
  obtain he | ⟨archs, he⟩ := Option.eq_none_or_eq_some (env.architectures m)
  · rw [he] at h ⊢
    simp [truthy]
  · rw [he] at h ⊢
    simp only at h
    by_cases hemp : archs.isEmpty
    · simp [truthy, hemp]
    · have htruthy : truthy (some archs) = true := by simp [truthy, hemp]
      simp [htruthy, h]

/-- On the validation-success path, `_compute` is fully determined: no
diagnostic, engine instantiated on `model_name` and the selected device,
one predict call on the zipped pairs, and the (optionally averaged)
batched scores returned. -/
theorem sasCompute_pass (env : Env) (p r : List String) (m : String)
    (ra : Bool) (bs : Nat) (h : archCheckPasses env m = true) :
    sasCompute env p r m ra bs =
      { predictionsAfter := p
        referencesAfter := r
        trace :=
          { printed := []
            engineInstantiated :=
              some (m, if env.cudaAvailable then "cuda" else "cpu")
            predictCalls := [(p.zip r, bs)] }
        result :=
          if ra then
            ComputeResult.scoresWithAvg
              (predictBatched (env.crossEncoderScore m) bs (p.zip r))
              (npMean (predictBatched (env.crossEncoderScore m) bs (p.zip r)))
          else
            ComputeResult.scores
              (predictBatched (env.crossEncoderScore m) bs (p.zip r)) } := by
  obtain ⟨archs, harch, hany⟩ :
      ∃ archs, env.architectures m = some archs ∧
        archs.any (fun a => pyEndsWith a "ForSequenceClassification") = true := by
    unfold archCheckPasses at h
    cases he : env.architectures m with
    | none => rw [he] at h; exact absurd h (by simp)
    | some archs =>
      rw [he] at h
      exact ⟨archs, rfl, h⟩
  have hne : archs ≠ [] := by
    intro he
    subst he
    simp at hany
  have htruthy : truthy (some archs) = true := by simp [truthy, hne]
  unfold sasCompute
  rw [harch]
  simp only [htruthy, if_true, Option.getD_some, hany, pairLoop_eq]
  cases ra <;> simp [pairLoop_eq]

/-- The mean of a nonempty list of rationals lies between any lower bound
and any upper bound of its elements. -/
theorem npMean_bounds (s : List ℚ) (hne : s ≠ []) :
    ∃ a, npMean s = NpFloat.val a ∧
      (∀ lo, (∀ x ∈ s, lo ≤ x) → lo ≤ a) ∧
      (∀ hi, (∀ x ∈ s, x ≤ hi) → a ≤ hi) := by
  have hlen : (0 : ℚ) < (s.length : ℚ) := by
    exact_mod_cast List.length_pos.mpr hne
  refine ⟨s.sum / (s.length : ℚ), ?_, ?_, ?_⟩
  · simp [npMean, hne]
  · intro lo hlo
    rw [le_div_iff₀ hlen]
    have h1 : s.length • lo ≤ s.sum := List.card_nsmul_le_sum s lo hlo
    calc lo * (s.length : ℚ) = s.length • lo := by
          rw [nsmul_eq_mul]; ring
      _ ≤ s.sum := h1
  · intro hi hhi
    rw [div_le_iff₀ hlen]
    have h1 : s.sum ≤ s.length • hi := List.sum_le_card_nsmul s hi hhi
    calc s.sum ≤ s.length • hi := h1
      _ = hi * (s.length : ℚ) := by rw [nsmul_eq_mul]; ring

/-! ### Concrete environments used to instantiate the theorems -/

/-- The default model name from the source. -/
def demoModel : String := "cross-encoder/stsb-roberta-large"

/-- A concrete environment: the registry resolves `demoModel` to a valid
sequence-classification architecture and nothing else; no CUDA; the engine
scores a pair 1 when the two strings are equal and 1/2 otherwise. -/
def demoEnv : Env where
  architectures := fun name =>
    if name = demoModel then some ["RobertaForSequenceClassification"] else none
  cudaAvailable := false
  crossEncoderScore := fun _ pr => if pr.1 = pr.2 then 1 else 1/2

/-- A concrete environment whose configuration loader resolves every model
name to a configuration with `architectures = None`. -/
def noArchEnv : Env where
  architectures := fun _ => none
  cudaAvailable := false
  crossEncoderScore := fun _ _ => 0

/-! ### The claims -/

/-- Claim C1: for every pair of equal-length prediction and reference lists
that passes the architecture check, `_compute` returns a score list of the
same length, whose i-th entry is the engine's score for the ordered pair
`(predictions[i], references[i])` with the prediction first, in input
order. -/
theorem sas_scores_pointwise (env : Env) (predictions references : List String)
    (model_name : String) (return_average : Bool) (batch_size : Nat)
    (hlen : predictions.length = references.length)
    (harch : archCheckPasses env model_name = true)
    (_hbs : 0 < batch_size) :
    ∃ s : List ℚ,
      (sasCompute env predictions references model_name return_average
          batch_size).result.scoresOf = some s ∧
      s.length = predictions.length ∧
      ∀ i (hp : i < predictions.length) (hr : i < references.length)
        (hs : i < s.length),
        s[i] = env.crossEncoderScore model_name (predictions[i], references[i]) := by
  refine ⟨(predictions.zip references).map (env.crossEncoderScore model_name),
    ?_, ?_, ?_⟩
  · rw [sasCompute_pass env predictions references model_name return_average
      batch_size harch]
    cases return_average <;>
      simp [ComputeResult.scoresOf, predictBatched_eq_map]
  · simp [List.length_zip, hlen]
  · intro i hp hr hs
    simp [List.getElem_map, List.getElem_zip]

theorem sas_scores_pointwise_witness :
    (["a", "b"] : List String).length = (["a", "c"] : List String).length ∧
    archCheckPasses demoEnv demoModel = true ∧
    0 < 4 ∧
    ∃ s : List ℚ,
      (sasCompute demoEnv ["a", "b"] ["a", "c"] demoModel false 4).result.scoresOf
        = some s ∧
      s.length = (["a", "b"] : List String).length ∧
      ∀ i (hp : i < (["a", "b"] : List String).length)
        (hr : i < (["a", "c"] : List String).length) (hs : i < s.length),
        s[i] = demoEnv.crossEncoderScore demoModel
          ((["a", "b"] : List String)[i], (["a", "c"] : List String)[i]) :=
  ⟨by decide, by decide, by decide,
    sas_scores_pointwise demoEnv ["a", "b"] ["a", "c"] demoModel false 4
      (by decide) (by decide) (by decide)⟩

/-- Claim C2: for every input passing the architecture check, with
`return_average = true` the call returns the pair of the score list and the
arithmetic mean of those scores (`np.mean`), and with
`return_average = false` it returns only the score list. -/
theorem sas_return_average (env : Env) (predictions references : List String)
    (model_name : String) (batch_size : Nat)
    (harch : archCheckPasses env model_name = true) :
    ∃ s : List ℚ,
      (sasCompute env predictions references model_name true batch_size).result
        = ComputeResult.scoresWithAvg s (npMean s) ∧
      (sasCompute env predictions references model_name false batch_size).result
        = ComputeResult.scores s ∧
      (s ≠ [] → npMean s = NpFloat.val (s.sum / s.length)) := by
  refine ⟨predictBatched (env.crossEncoderScore model_name) batch_size
      (predictions.zip references), ?_, ?_, ?_⟩
  · rw [sasCompute_pass env predictions references model_name true batch_size harch]
    simp
  · rw [sasCompute_pass env predictions references model_name false batch_size harch]
    simp
  · intro hne
    simp [npMean, hne]

theorem sas_return_average_witness :
    archCheckPasses demoEnv demoModel = true ∧
    ∃ s : List ℚ,
      (sasCompute demoEnv ["a"] ["a"] demoModel true 64).result
        = ComputeResult.scoresWithAvg s (npMean s) ∧
      (sasCompute demoEnv ["a"] ["a"] demoModel false 64).result
        = ComputeResult.scores s ∧
      (s ≠ [] → npMean s = NpFloat.val (s.sum / s.length)) :=
  ⟨by decide, sas_return_average demoEnv ["a"] ["a"] demoModel 64 (by decide)⟩

/-- Claim C3 (code bug): the claim says that with absent architecture
metadata `_compute` emits the diagnostic and returns no result.  In the
code, `is_cross_encoder` is assigned only inside `if
model_config.architectures:`, so with `architectures = None` the read in
`if not is_cross_encoder` raises `UnboundLocalError` instead: nothing is
printed, `None` is not returned, and (as the claim does correctly say) the
engine is neither instantiated nor invoked. -/
theorem sas_absent_architectures_unbound_local :
    (sasCompute noArchEnv ["a"] ["b"] "some-model" false 64).result
        = ComputeResult.unboundLocalError ∧
      (sasCompute noArchEnv ["a"] ["b"] "some-model" false 64).trace.printed = [] ∧
      (sasCompute noArchEnv ["a"] ["b"] "some-model" false 64).trace.engineInstantiated
        = none ∧
      (sasCompute noArchEnv ["a"] ["b"] "some-model" false 64).trace.predictCalls = [] :=
  ⟨rfl, rfl, rfl, rfl⟩

/-- Claim C4: `batch_size` influences only how pairs are submitted to the
engine, never the returned scores: for any two positive batch sizes the
score lists agree, all else equal. -/
theorem sas_batch_size_irrelevant (env : Env) (predictions references : List String)
    (model_name : String) (return_average : Bool) (b1 b2 : Nat)
    (_h1 : 0 < b1) (_h2 : 0 < b2) :
    (sasCompute env predictions references model_name return_average b1).result.scoresOf
      = (sasCompute env predictions references model_name return_average b2).result.scoresOf := by
  cases harch : archCheckPasses env model_name with
  | false =>
    rw [sasCompute_fail env predictions references model_name return_average b1 harch,
      sasCompute_fail env predictions references model_name return_average b2 harch]
  | true =>
    rw [sasCompute_pass env predictions references model_name return_average b1 harch,
      sasCompute_pass env predictions references model_name return_average b2 harch]
    cases return_average <;>
      simp [ComputeResult.scoresOf, predictBatched_eq_map]

theorem sas_batch_size_irrelevant_witness :
    0 < 1 ∧ 0 < 64 ∧
    (sasCompute demoEnv ["a"] ["b"] demoModel false 1).result.scoresOf
      = (sasCompute demoEnv ["a"] ["b"] demoModel false 64).result.scoresOf :=
  ⟨by decide, by decide,
    sas_batch_size_irrelevant demoEnv ["a"] ["b"] demoModel false 1 64
      (by decide) (by decide)⟩

/-- Claim C5: when the two lists have differing lengths and the architecture
check passes, `_compute` does not fail: the zip truncates to the shorter
list and exactly `min predictions.length references.length` scores come
back. -/
theorem sas_length_mismatch_truncates (env : Env) (predictions references : List String)
    (model_name : String) (return_average : Bool) (batch_size : Nat)
    (_hlen : predictions.length ≠ references.length)
    (harch : archCheckPasses env model_name = true)
    (_hbs : 0 < batch_size) :
    ∃ s : List ℚ,
      (sasCompute env predictions references model_name return_average
          batch_size).result.scoresOf = some s ∧
      s.length = min predictions.length references.length ∧
      ∀ i (hp : i < predictions.length) (hr : i < references.length)
        (hs : i < s.length),
        s[i] = env.crossEncoderScore model_name (predictions[i], references[i]) := by
  refine ⟨(predictions.zip references).map (env.crossEncoderScore model_name),
    ?_, ?_, ?_⟩
  · rw [sasCompute_pass env predictions references model_name return_average
      batch_size harch]
    cases return_average <;> simp [ComputeResult.scoresOf, predictBatched_eq_map]
  · simp [List.length_zip]
  · intro i hp hr hs
    simp [List.getElem_map, List.getElem_zip]

theorem sas_length_mismatch_truncates_witness :
    (["a", "b"] : List String).length ≠ (["c"] : List String).length ∧
    archCheckPasses demoEnv demoModel = true ∧
    0 < 64 ∧
    ∃ s : List ℚ,
      (sasCompute demoEnv ["a", "b"] ["c"] demoModel false 64).result.scoresOf
        = some s ∧
      s.length = min (["a", "b"] : List String).length (["c"] : List String).length ∧
      ∀ i (hp : i < (["a", "b"] : List String).length)
        (hr : i < (["c"] : List String).length) (hs : i < s.length),
        s[i] = demoEnv.crossEncoderScore demoModel
          ((["a", "b"] : List String)[i], (["c"] : List String)[i]) :=
  ⟨by decide, by decide, by decide,
    sas_length_mismatch_truncates demoEnv ["a", "b"] ["c"] demoModel false 64
      (by decide) (by decide) (by decide)⟩

/-- Claim C6: with both input lists empty and the architecture check
passing, the returned score list is empty, and when the average is
requested it is `np.mean([])`, the explicit undefined signal (NaN). -/
theorem sas_empty_inputs (env : Env) (model_name : String) (batch_size : Nat)
    (harch : archCheckPasses env model_name = true) :
    (sasCompute env [] [] model_name false batch_size).result
        = ComputeResult.scores [] ∧
      (sasCompute env [] [] model_name true batch_size).result
        = ComputeResult.scoresWithAvg [] NpFloat.nan := by
  constructor <;>
    · rw [sasCompute_pass env [] [] model_name _ batch_size harch]
      simp [predictBatched, npMean]

theorem sas_empty_inputs_witness :
    archCheckPasses demoEnv demoModel = true ∧
    (sasCompute demoEnv [] [] demoModel false 64).result
        = ComputeResult.scores [] ∧
      (sasCompute demoEnv [] [] demoModel true 64).result
        = ComputeResult.scoresWithAvg [] NpFloat.nan :=
  ⟨by decide, sas_empty_inputs demoEnv demoModel 64 (by decide)⟩

/-- Claim C7: on every invocation passing the architecture check the engine
is instantiated on `model_name` and the selected device, which is the
accelerated device exactly when it is available and the fallback
otherwise. -/
theorem sas_device_selection (env : Env) (predictions references : List String)
    (model_name : String) (return_average : Bool) (batch_size : Nat)
    (harch : archCheckPasses env model_name = true) :
    ∃ device,
      (sasCompute env predictions references model_name return_average
          batch_size).trace.engineInstantiated = some (model_name, device) ∧
      (env.cudaAvailable = true → device = "cuda") ∧
      (env.cudaAvailable = false → device = "cpu") := by
  refine ⟨if env.cudaAvailable then "cuda" else "cpu", ?_, ?_, ?_⟩
  · rw [sasCompute_pass env predictions references model_name return_average
      batch_size harch]
  · intro h
    simp [h]
  · intro h
    simp [h]

theorem sas_device_selection_witness :
    archCheckPasses demoEnv demoModel = true ∧
    ∃ device,
      (sasCompute demoEnv ["a"] ["b"] demoModel false 64).trace.engineInstantiated
        = some (demoModel, device) ∧
      (demoEnv.cudaAvailable = true → device = "cuda") ∧
      (demoEnv.cudaAvailable = false → device = "cpu") :=
  ⟨by decide, sas_device_selection demoEnv ["a"] ["b"] demoModel false 64 (by decide)⟩

/-- Claim C8: `_compute` never mutates its `predictions` or `references`
arguments: they are unchanged on the success path and on both failure
paths. -/
theorem sas_inputs_unchanged (env : Env) (predictions references : List String)
    (model_name : String) (return_average : Bool) (batch_size : Nat) :
    (sasCompute env predictions references model_name return_average
        batch_size).predictionsAfter = predictions ∧
      (sasCompute env predictions references model_name return_average
        batch_size).referencesAfter = references := by
  cases harch : archCheckPasses env model_name with
  | false =>
    rw [sasCompute_fail env predictions references model_name return_average
      batch_size harch]
    exact ⟨rfl, rfl⟩
  | true =>
    rw [sasCompute_pass env predictions references model_name return_average
      batch_size harch]
    exact ⟨rfl, rfl⟩

/-- Claim C9: the score list returned with `return_average = true` is
exactly the one returned with `return_average = false`; the flag only adds
the average. -/
theorem sas_average_flag_same_scores (env : Env) (predictions references : List String)
    (model_name : String) (batch_size : Nat) :
    (sasCompute env predictions references model_name true batch_size).result.scoresOf
      = (sasCompute env predictions references model_name false batch_size).result.scoresOf := by
  cases harch : archCheckPasses env model_name with
  | false =>
    rw [sasCompute_fail env predictions references model_name true batch_size harch,
      sasCompute_fail env predictions references model_name false batch_size harch]
  | true =>
    rw [sasCompute_pass env predictions references model_name true batch_size harch,
      sasCompute_pass env predictions references model_name false batch_size harch]
    simp [ComputeResult.scoresOf]

/-- Claim C10: for nonempty inputs the returned average lies between every
lower bound and every upper bound of the per-pair scores — in particular
between their minimum and their maximum, and in [0, 1] whenever every score
is. -/
theorem sas_average_bounded (env : Env) (predictions references : List String)
    (model_name : String) (batch_size : Nat)
    (harch : archCheckPasses env model_name = true) (_hbs : 0 < batch_size)
    (hp : predictions ≠ []) (hr : references ≠ []) :
    ∃ (s : List ℚ) (a : ℚ),
      (sasCompute env predictions references model_name true batch_size).result
        = ComputeResult.scoresWithAvg s (NpFloat.val a) ∧
      s ≠ [] ∧
      (∀ lo, (∀ x ∈ s, lo ≤ x) → lo ≤ a) ∧
      (∀ hi, (∀ x ∈ s, x ≤ hi) → a ≤ hi) := by
  have hzip : predictions.zip references ≠ [] := by
    cases predictions with
    | nil => exact absurd rfl hp
    | cons a as =>
      cases references with
      | nil => exact absurd rfl hr
      | cons b bs => simp
  have hsne : (predictions.zip references).map (env.crossEncoderScore model_name) ≠ [] := by
    simpa using hzip
  obtain ⟨a, hmean, hlo, hhi⟩ := npMean_bounds _ hsne
  refine ⟨_, a, ?_, hsne, hlo, hhi⟩
  rw [sasCompute_pass env predictions references model_name true batch_size harch]
  simp [predictBatched_eq_map, hmean]

theorem sas_average_bounded_witness :
    archCheckPasses demoEnv demoModel = true ∧
    0 < 64 ∧
    (["a"] : List String) ≠ [] ∧
    (["b"] : List String) ≠ [] ∧
    ∃ (s : List ℚ) (a : ℚ),
      (sasCompute demoEnv ["a"] ["b"] demoModel true 64).result
        = ComputeResult.scoresWithAvg s (NpFloat.val a) ∧
      s ≠ [] ∧
      (∀ lo, (∀ x ∈ s, lo ≤ x) → lo ≤ a) ∧
      (∀ hi, (∀ x ∈ s, x ≤ hi) → a ≤ hi) :=
  ⟨by decide, by decide, by decide, by decide,
    sas_average_bounded demoEnv ["a"] ["b"] demoModel 64 (by decide) (by decide)
      (by decide) (by decide)⟩

end SimpleLLMsEval
